import Mathlib

/-!
# Verification of the wavenet-for-chrome service worker playback pipeline

Shallow embedding of `src/service-worker.js`: the module-level state
(`queue`, `playing`, `cancellationToken`), the `readAloud` drain loop, the
`stopReading` handler, the success/failure behaviour of `synthesize`, and the
lazy singleton creation of the offscreen audio document
(`createOffscreenDocument` / `hasOffscreenDocument`).

The service worker runs on a single-threaded cooperative event loop.  We model
one `readAloud` session as a deterministic run that emits a trace of
observable events; the environment (`Env`) fixes the outcome of every external
interaction (API-key validity, per-chunk backend success, per-iteration sink
playback success, offscreen-document availability) and fixes at which `await`
suspension points a concurrent `stopReading` call interleaves.

Timing convention for prefetches: the loop pushes `getAudioUri` for the next
chunk onto `prefetchQueue` at the top of each iteration (the network request
is issued there), and the result — including any failure side effects of
`synthesize` — is observed when the promise is awaited, one iteration later.
This is one admissible schedule of the real event loop (the one where a
prefetch settles no earlier than its `await`); the `synthStart`/`synthEnd`
events record issuance and observed settlement of each synthesis request.

Audio payload bytes are abstracted away: no claim inspects them, only the
success/failure and ordering of the calls.  `text.chunk()` lives in
`src/helpers/text-helpers.js`, which is not part of the sources; `readAloud`
is therefore modelled over the already-chunked list of its utterance.
-/

namespace Wavenet

/-- Observable events of one service-worker session.

* `synthStart t` — a synthesis network request for chunk `t` is issued
  (`getAudioUri`/`synthesize` called, lines 105/110 of the source);
* `synthEnd t ok` — that request's settlement is observed at its `await`;
* `playStart t` — the `play` message for chunk `t` is sent to the offscreen
  document (line 115);
* `playEnd t ok` — the playback promise settles (`ok = false` when the sink
  rejected, e.g. because a concurrent stop aborted it);
* `stopCalled` — `stopReading` begins executing (line 155);
* `sinkStopSent` — `stopReading`'s explicit `stop` message reaches the
  offscreen document (line 165);
* `setError title` — `synthesize` pushes an error card to the current tab. -/
inductive Event where
  | synthStart (text : String)
  | synthEnd (text : String) (ok : Bool)
  | playStart (text : String)
  | playEnd (text : String) (ok : Bool)
  | stopCalled
  | sinkStopSent
  | setError (title : String)
  deriving DecidableEq, Repr

/-- The module-level mutable state of the service worker (lines 6–8):
`let queue = []`, `let playing = false`, `let cancellationToken = false`. -/
structure SWState where
  queue : List String
  playing : Bool
  cancellationToken : Bool
  deriving DecidableEq, Repr

/-- The state before any session: empty queue, not playing, token clear. -/
def idleState : SWState := ⟨[], false, false⟩

/-- Environment of a session: outcomes of all external interactions, and the
`await` points at which a concurrent `stopReading` interleaves.

* `apiKeyOk` — `sync.apiKey && sync.apiKeyValid` (line 208);
* `backendOk t` — `response.ok` for the synthesis request of chunk `t`
  (line 252);
* `playOk n` — whether the sink playback awaited at loop iteration `n`
  resolves (line 115);
* `offscreenOk` — whether `createOffscreenDocument` and the subsequent
  message send succeed (lines 114, 164);
* `stopDuringSynth n` — a user `stopReading` runs while iteration `n` is
  awaiting its chunk's synthesis (between lines 108–111);
* `stopDuringPlay n` — a user `stopReading` runs while iteration `n` is
  awaiting sink playback (line 115). -/
structure Env where
  apiKeyOk : Bool
  backendOk : String → Bool
  playOk : Nat → Bool
  offscreenOk : Bool
  stopDuringSynth : Nat → Bool
  stopDuringPlay : Nat → Bool

/-- How a `readAloud` invocation finishes: `success` is the
`return Promise.resolve(true)` at line 135, `earlyReturn` is one of the bare
`return`s (token check at line 98, playback catch at line 126), `threw` is a
rejection propagating out of the handler (a `synthesize` throw,
lines 218/262). -/
inductive Outcome where
  | success
  | earlyReturn
  | threw
  deriving DecidableEq, Repr

/-- Events emitted by one `stopReading` run (lines 155–173): it always starts,
and the explicit `stop` message reaches the sink unless offscreen-document
creation or the send fails (the `catch` at line 169 swallows that). -/
def stopTrace (env : Env) : List Event :=
  Event.stopCalled :: (if env.offscreenOk then [Event.sinkStopSent] else [])

/-- `handlers.stopReading` (lines 155–174): sets `cancellationToken = true`,
clears `queue`, clears `playing`, then sends the sink an explicit `stop`
command.  It never throws (the send is wrapped in try/catch) and ignores the
prior state. -/
def stopReading (env : Env) (_st : SWState) : SWState × List Event :=
  (⟨[], false, true⟩, stopTrace env)

/-- The `while (queue.length)` drain loop of `handlers.readAloud`
(lines 93–131), as a function of the queue, the `playing` flag, the
cancellation token and the iteration counter `count`.

Each iteration: checks the cancellation token (lines 94–99); shifts the head
chunk; issues the prefetch `getAudioUri` for the next chunk if any
(lines 101–106); awaits the current chunk's audio — `getAudioUri` directly
when `count === 0`, the prefetched promise otherwise (lines 108–111), at
which point a concurrent `stopReading` may have interleaved and the awaited
`synthesize`'s failure side effects are observed (missing/invalid API key
throws, a non-ok backend response calls `stopReading` itself and throws,
lines 208–263); then creates the offscreen document and awaits sink playback
inside try/catch (lines 113–127), and loops with `count + 1`.

When a `stopReading` interleaved, the queue is empty at the next iteration's
`while` check, so the loop exits through the normal queue-empty path
(lines 133–135); that exit is written inline here (the `stopped1 || stopped2`
branch) so that the recursion is structural on the remaining queue. -/
def drainLoop (env : Env) : List String → Bool → Bool → Nat → SWState × List Event × Outcome
  | [], _playing, token, _count => (⟨[], false, token⟩, [], Outcome.success)
  | text :: rest, playing, token, count =>
    if token then
      -- lines 94–99: reset the token, clear `playing`, bare return
      (⟨text :: rest, false, false⟩, [], Outcome.earlyReturn)
    else
      let prefetchTr : List Event :=
        match rest.head? with
        | some nextText => [Event.synthStart nextText]
        | none => []
      let firstTr : List Event := if count = 0 then [Event.synthStart text] else []
      let stopped1 := env.stopDuringSynth count
      let stopTr1 : List Event := if stopped1 then stopTrace env else []
      let q1 : List String := if stopped1 then [] else rest
      let playing1 : Bool := if stopped1 then false else playing
      if !env.apiKeyOk then
        -- lines 208–219: error card, throw, no cleanup of the loop's state
        (⟨q1, playing1, stopped1⟩,
          prefetchTr ++ firstTr ++ stopTr1 ++
            [Event.synthEnd text false, Event.setError "API key is missing or invalid"],
          Outcome.threw)
      else if !env.backendOk text then
        -- lines 252–263: error card, `await this.stopReading()`, throw
        (⟨[], false, true⟩,
          prefetchTr ++ firstTr ++ stopTr1 ++
            [Event.synthEnd text false, Event.setError "Failed to synthesize text"] ++
            stopTrace env,
          Outcome.threw)
      else
        let synthTr := prefetchTr ++ firstTr ++ stopTr1 ++ [Event.synthEnd text true]
        if !env.offscreenOk then
          -- lines 113–127: createOffscreenDocument rejected, catch, bare return
          (⟨q1, playing1, stopped1⟩, synthTr, Outcome.earlyReturn)
        else
          let stopped2 := env.stopDuringPlay count
          let stopTr2 : List Event := if stopped2 then stopTrace env else []
          let q2 : List String := if stopped2 then [] else q1
          let playing2 : Bool := if stopped2 then false else playing1
          let pOk := env.playOk count
          let tr := synthTr ++ [Event.playStart text] ++ stopTr2 ++ [Event.playEnd text pOk]
          if !pOk then
            -- line 126: playback failed, catch, bare return
            (⟨q2, playing2, stopped1 || stopped2⟩, tr, Outcome.earlyReturn)
          else if stopped1 || stopped2 then
            -- queue emptied by the interleaved stop: the `while` check fails,
            -- `playing = false`, `return Promise.resolve(true)` (lines 133–135)
            (⟨[], false, true⟩, tr, Outcome.success)
          else
            let next := drainLoop env rest playing false (count + 1)
            (next.1, tr ++ next.2.1, next.2.2)

/-- `handlers.readAloud` (lines 76–136) over the already-chunked utterance:
stops any running session first (line 79), pushes the chunks onto the queue,
sets `playing = true`, clears the cancellation token (lines 84–92), then runs
the drain loop with `count = 0`. -/
def readAloud (env : Env) (st : SWState) (chunks : List String) :
    SWState × List Event × Outcome :=
  let stopPart := if st.playing then stopReading env st else (st, [])
  let run := drainLoop env (stopPart.1.queue ++ chunks) true false 0
  (run.1, stopPart.2 ++ run.2.1, run.2.2)

/-- Final module state after a `readAloud` invocation. -/
def readAloudState (env : Env) (st : SWState) (chunks : List String) : SWState :=
  (readAloud env st chunks).1

/-- Event trace of a `readAloud` invocation. -/
def readAloudTrace (env : Env) (st : SWState) (chunks : List String) : List Event :=
  (readAloud env st chunks).2.1

/-- Outcome of a `readAloud` invocation. -/
def readAloudOutcome (env : Env) (st : SWState) (chunks : List String) : Outcome :=
  (readAloud env st chunks).2.2

/-- The fault-free, interruption-free environment: valid API key, every
backend call and playback succeeds, the offscreen document is available, and
no concurrent `stopReading` occurs. -/
def envOk : Env :=
  { apiKeyOk := true
    backendOk := fun _ => true
    playOk := fun _ => true
    offscreenOk := true
    stopDuringSynth := fun _ => false
    stopDuringPlay := fun _ => false }

example :
    readAloudTrace envOk idleState ["A", "B"] =
      [Event.synthStart "B", Event.synthStart "A", Event.synthEnd "A" true,
       Event.playStart "A", Event.playEnd "A" true, Event.synthEnd "B" true,
       Event.playStart "B", Event.playEnd "B" true] := by decide

example : readAloudState envOk idleState ["A", "B"] = ⟨[], false, false⟩ := by decide

example : readAloudOutcome envOk idleState ["A", "B"] = Outcome.success := by decide

/-! ## In-flight counting

A synthesis request is *in flight* between its `synthStart` and its
`synthEnd`; a playback is in flight between its `playStart` and `playEnd`.
The number of requests in flight at instant `n` of a trace `tr` is the
running balance of starts minus settlements over `tr.take n`. -/

/-- Contribution of one event to the number of in-flight synthesis calls. -/
def synthDelta : Event → Int
  | Event.synthStart _ => 1
  | Event.synthEnd _ _ => -1
  | _ => 0

/-- Contribution of one event to the number of in-flight playback calls. -/
def playDelta : Event → Int
  | Event.playStart _ => 1
  | Event.playEnd _ _ => -1
  | _ => 0

/-- Synthesis calls issued minus synthesis calls settled over a trace. -/
def synthBal : List Event → Int
  | [] => 0
  | e :: tl => synthDelta e + synthBal tl

/-- Playback calls issued minus playback calls settled over a trace. -/
def playBal : List Event → Int
  | [] => 0
  | e :: tl => playDelta e + playBal tl

theorem synthBal_append (l₁ l₂ : List Event) :
    synthBal (l₁ ++ l₂) = synthBal l₁ + synthBal l₂ := by
  induction l₁ with
  | nil => simp [synthBal]
  | cons e tl ih => simp [synthBal, ih]; ring

theorem playBal_append (l₁ l₂ : List Event) :
    playBal (l₁ ++ l₂) = playBal l₁ + playBal l₂ := by
  induction l₁ with
  | nil => simp [playBal]
  | cons e tl ih => simp [playBal, ih]; ring

/-- Closed form of the drain-loop trace in the fault-free environment.
`first` records whether this is the iteration with `count === 0`, whose own
chunk is synthesized directly (line 110) rather than taken from the prefetch
queue. -/
def okTrace : List String → Bool → List Event
  | [], _ => []
  | text :: rest, first =>
    (match rest.head? with
     | some nextText => [Event.synthStart nextText]
     | none => []) ++
    (if first then [Event.synthStart text] else []) ++
    [Event.synthEnd text true, Event.playStart text, Event.playEnd text true] ++
    okTrace rest false

theorem envOk_apiKeyOk : envOk.apiKeyOk = true := rfl
theorem envOk_backendOk (t : String) : envOk.backendOk t = true := rfl
theorem envOk_playOk (n : Nat) : envOk.playOk n = true := rfl
theorem envOk_offscreenOk : envOk.offscreenOk = true := rfl
theorem envOk_stopDuringSynth (n : Nat) : envOk.stopDuringSynth n = false := rfl
theorem envOk_stopDuringPlay (n : Nat) : envOk.stopDuringPlay n = false := rfl

/-- In the fault-free environment the drain loop plays every queued chunk in
order, emits exactly the `okTrace` events, and finishes idle. -/
theorem drainLoop_envOk (chunks : List String) :
    ∀ (playing : Bool) (count : Nat),
      drainLoop envOk chunks playing false count =
        (⟨[], false, false⟩, okTrace chunks (decide (count = 0)), Outcome.success) := by
  induction chunks with
  | nil => intro playing count; simp [drainLoop, okTrace]
  | cons text rest ih =>
    intro playing count
    have hsucc : ¬(count + 1 = 0) := Nat.succ_ne_zero count
    have ih' := ih playing (count + 1)
    simp only [hsucc, decide_eq_true_eq, decide_eq_false_iff_not, not_false_eq_true] at ih'
    simp [drainLoop, okTrace, envOk_apiKeyOk, envOk_backendOk, envOk_playOk,
      envOk_offscreenOk, envOk_stopDuringSynth, envOk_stopDuringPlay, ih', hsucc]

/-- Prefix balances of the drain-loop trace from the second iteration on:
the head chunk's synthesis was issued in the previous iteration, so the
synthesis balance of this suffix ranges over `[-1, 1]`, at most one playback
is in flight, and while a playback is in flight the local synthesis balance
is at most `0`. -/
theorem okTrace_tail_bounds (rest : List String) :
    ∀ n : Nat,
      -1 ≤ synthBal ((okTrace rest false).take n) ∧
      synthBal ((okTrace rest false).take n) ≤ 1 ∧
      0 ≤ playBal ((okTrace rest false).take n) ∧
      playBal ((okTrace rest false).take n) ≤ 1 ∧
      (playBal ((okTrace rest false).take n) = 1 →
        synthBal ((okTrace rest false).take n) ≤ 0) := by
  induction rest with
  | nil => intro n; simp [okTrace, synthBal, playBal]
  | cons text rest2 ih =>
    intro n
    match rest2 with
    | [] =>
      rcases n with _ | _ | _ | n <;>
        simp [okTrace, synthBal, playBal, synthDelta, playDelta, List.take_succ_cons]
    | nextText :: rest3 =>
      have htr : okTrace (text :: nextText :: rest3) false =
          Event.synthStart nextText :: Event.synthEnd text true ::
          Event.playStart text :: Event.playEnd text true ::
          okTrace (nextText :: rest3) false := by
        simp [okTrace]
      rw [htr]
      rcases n with _ | _ | _ | _ | n
      · simp [synthBal, playBal]
      · simp [synthBal, playBal, synthDelta, playDelta, List.take_succ_cons]
      · simp [synthBal, playBal, synthDelta, playDelta, List.take_succ_cons]
      · simp [synthBal, playBal, synthDelta, playDelta, List.take_succ_cons]
      · have := ih n
        simp only [List.take_succ_cons, synthBal, playBal, synthDelta, playDelta]
        omega

/-- Prefix balances of a full fault-free session trace: the synthesis balance
stays within `[0, 2]`, at most one playback is in flight, and while a
playback is in flight at most one synthesis is in flight. -/
theorem okTrace_bounds (chunks : List String) :
    ∀ n : Nat,
      0 ≤ synthBal ((okTrace chunks true).take n) ∧
      synthBal ((okTrace chunks true).take n) ≤ 2 ∧
      0 ≤ playBal ((okTrace chunks true).take n) ∧
      playBal ((okTrace chunks true).take n) ≤ 1 ∧
      (playBal ((okTrace chunks true).take n) = 1 →
        synthBal ((okTrace chunks true).take n) ≤ 1) := by
  match chunks with
  | [] => intro n; simp [okTrace, synthBal, playBal]
  | [text] =>
    intro n
    rcases n with _ | _ | _ | _ | n <;>
      simp [okTrace, synthBal, playBal, synthDelta, playDelta, List.take_succ_cons]
  | text :: nextText :: rest3 =>
    intro n
    have htr : okTrace (text :: nextText :: rest3) true =
        Event.synthStart nextText :: Event.synthStart text ::
        Event.synthEnd text true :: Event.playStart text ::
        Event.playEnd text true :: okTrace (nextText :: rest3) false := by
      simp [okTrace]
    rw [htr]
    rcases n with _ | _ | _ | _ | _ | n
    · simp [synthBal, playBal]
    · simp [synthBal, playBal, synthDelta, playDelta, List.take_succ_cons]
    · simp [synthBal, playBal, synthDelta, playDelta, List.take_succ_cons]
    · simp [synthBal, playBal, synthDelta, playDelta, List.take_succ_cons]
    · simp [synthBal, playBal, synthDelta, playDelta, List.take_succ_cons]
    · have := okTrace_tail_bounds (nextText :: rest3) n
      simp only [List.take_succ_cons, synthBal, playBal, synthDelta, playDelta]
      omega

/-- A fault-free `readAloud` session trace is exactly `okTrace`. -/
theorem readAloudTrace_envOk (chunks : List String) :
    readAloudTrace envOk idleState chunks = okTrace chunks true := by
  simp [readAloudTrace, readAloud, idleState, drainLoop_envOk]

/-! ## Claim C1 — drain-loop single-flight invariant -/

/-- C1, counterexample.  The claim says at most one synthesis call is ever
outstanding.  In a fault-free two-chunk session, at instant 2 of the trace the
prefetch for chunk "B" (pushed at line 105 before the first chunk's own
`getAudioUri` at line 110 is awaited) and the synthesis of chunk "A" are both
in flight: the synthesis balance is 2. -/
theorem readAloud_two_synth_in_flight :
    synthBal ((readAloudTrace envOk idleState ["A", "B"]).take 2) = 2 := by decide

/-- C1, amended.  At every instant of a fault-free `readAloud` session, at
most one playback call is outstanding, at most *two* synthesis calls are
outstanding (the awaited chunk's own request and the prefetch for its
successor overlap at the top of an iteration), and while a playback is
outstanding at most one synthesis (the prefetch for the next chunk) is
outstanding. -/
theorem readAloud_single_flight_amended (chunks : List String) (n : Nat) :
    playBal ((readAloudTrace envOk idleState chunks).take n) ≤ 1 ∧
    synthBal ((readAloudTrace envOk idleState chunks).take n) ≤ 2 ∧
    (playBal ((readAloudTrace envOk idleState chunks).take n) = 1 →
      synthBal ((readAloudTrace envOk idleState chunks).take n) ≤ 1) := by
  rw [readAloudTrace_envOk]
  obtain ⟨-, h2, -, h4, h5⟩ := okTrace_bounds chunks n
  exact ⟨h4, h2, h5⟩

/-- Witness for `readAloud_single_flight_amended`: at instant 4 of the
fault-free session over ["A", "B"] chunk "A" is playing, and indeed exactly
one synthesis (the prefetch of "B") is outstanding. -/
theorem readAloud_single_flight_amended_witness :
    synthBal ((readAloudTrace envOk idleState ["A", "B"]).take 4) ≤ 1 :=
  (readAloud_single_flight_amended ["A", "B"] 4).2.2 (by decide)

/-! ## Claim C2 — postcondition of stop -/

/-- C2, confirmed.  From every state in which it is called — playing or idle,
at any point of the drain loop — `stopReading` completes with the playing
flag false and the pending chunk queue empty, and, whenever the offscreen
audio document is reachable (the failure of which is exactly what the
try/catch at lines 163–171 guards), an explicit stop command has been sent to
the audio sink. -/
theorem stopReading_postcondition (env : Env) (st : SWState)
    (h : env.offscreenOk = true) :
    (stopReading env st).1.playing = false ∧
    (stopReading env st).1.queue = [] ∧
    Event.sinkStopSent ∈ (stopReading env st).2 := by
  simp [stopReading, stopTrace, h]

/-- Witness for `stopReading_postcondition` at a concrete state. -/
theorem stopReading_postcondition_witness :
    (stopReading envOk ⟨["A", "B"], true, false⟩).1.playing = false ∧
    (stopReading envOk ⟨["A", "B"], true, false⟩).1.queue = [] ∧
    Event.sinkStopSent ∈ (stopReading envOk ⟨["A", "B"], true, false⟩).2 :=
  stopReading_postcondition envOk ⟨["A", "B"], true, false⟩ rfl

/-! ## Claim C3 — synthesis-failure policy -/

/-- Fault environment: the API key is missing or invalid. -/
def envAuth : Env := { envOk with apiKeyOk := false }

/-- Fault environment: every synthesis request is rejected by the backend. -/
def envBackend : Env := { envOk with backendOk := fun _ => false }

/-- C3, counterexample.  When synthesis fails for the authentication reason,
the throw at line 218 happens *without* any cleanup: the error propagates to
the caller, but the session is left with `playing = true` — not `Idle` as the
claim states.  (Only the backend-error path, line 260, calls
`stopReading` before throwing.) -/
theorem readAloud_auth_failure_leaves_playing :
    readAloudOutcome envAuth idleState ["A"] = Outcome.threw ∧
    (readAloudState envAuth idleState ["A"]).playing = true := by decide

/-- Helper: with a valid API key, the only throwing path of the drain loop is
the backend-error branch, which runs `stopReading` first, so a session whose
`readAloud` promise rejects is never left with `playing = true`. -/
theorem drainLoop_threw_playing (env : Env) (h : env.apiKeyOk = true) :
    ∀ (q : List String) (playing token : Bool) (count : Nat),
      (drainLoop env q playing token count).2.2 = Outcome.threw →
      (drainLoop env q playing token count).1.playing = false := by
  intro q
  induction q with
  | nil => intro playing token count hout; simp [drainLoop] at hout
  | cons text rest ih =>
    intro playing token count hout
    cases htok : token <;> cases hs1 : env.stopDuringSynth count <;>
      cases hb : env.backendOk text <;> cases ho : env.offscreenOk <;>
      cases hs2 : env.stopDuringPlay count <;> cases hp : env.playOk count <;>
      (simp [drainLoop, h, htok, hs1, hb, ho, hs2, hp] at hout ⊢;
        try exact ih _ _ _ hout)

/-- C3, amended.  If a synthesis call fails for the authentication reason,
the failure propagates to the caller immediately but the session is left with
`playing = true` (not `Idle`); if it fails for the backend-error reason, any
failure that propagates to the caller leaves the session in `Idle`
(`playing = false`), because that path runs `stopReading` before throwing. -/
theorem synth_failure_propagation_amended :
    (∀ (env : Env) (c : String) (rest : List String),
      env.apiKeyOk = false → env.stopDuringSynth 0 = false →
      readAloudOutcome env idleState (c :: rest) = Outcome.threw ∧
      (readAloudState env idleState (c :: rest)).playing = true) ∧
    (∀ (env : Env) (st : SWState) (chunks : List String),
      env.apiKeyOk = true →
      readAloudOutcome env st chunks = Outcome.threw →
      (readAloudState env st chunks).playing = false) := by
  constructor
  · intro env c rest h1 h2
    simp [readAloudOutcome, readAloudState, readAloud, idleState, drainLoop, h1, h2]
  · intro env st chunks h hout
    simp only [readAloudOutcome, readAloud] at hout
    simp only [readAloudState, readAloud]
    exact drainLoop_threw_playing env h _ _ _ _ hout

/-- Witness for `synth_failure_propagation_amended`: both halves at concrete
environments. -/
theorem synth_failure_propagation_amended_witness :
    (readAloudOutcome envAuth idleState ["A"] = Outcome.threw ∧
      (readAloudState envAuth idleState ["A"]).playing = true) ∧
    (readAloudState envBackend idleState ["A"]).playing = false :=
  ⟨synth_failure_propagation_amended.1 envAuth "A" [] rfl rfl,
   synth_failure_propagation_amended.2 envBackend idleState ["A"] rfl (by decide)⟩

/-! ## Claim C5 — at most one session -/

/-- C5, confirmed.  When `readAloud` is invoked while a session is playing,
the full `stopReading` sequence runs first (line 79): the explicit stop
command is at instant 1 of the trace, and every synthesis request of the new
utterance comes strictly later. -/
theorem readAloud_stops_before_new_synthesis (env : Env) (st : SWState)
    (chunks : List String) (hp : st.playing = true) (ho : env.offscreenOk = true) :
    (readAloudTrace env st chunks)[1]? = some Event.sinkStopSent ∧
    ∀ (j : Nat) (t : String),
      (readAloudTrace env st chunks)[j]? = some (Event.synthStart t) → 1 < j := by
  have htr : readAloudTrace env st chunks =
      Event.stopCalled :: Event.sinkStopSent ::
        (drainLoop env chunks true false 0).2.1 := by
    simp [readAloudTrace, readAloud, hp, stopReading, stopTrace, ho]
  refine ⟨by rw [htr]; simp, ?_⟩
  intro j t hj
  rw [htr] at hj
  match j with
  | 0 => simp at hj
  | 1 => simp at hj
  | j + 2 => omega

/-- Witness for `readAloud_stops_before_new_synthesis` at a concrete playing
state. -/
theorem readAloud_stops_before_new_synthesis_witness :
    (readAloudTrace envOk ⟨[], true, false⟩ ["A"])[1]? = some Event.sinkStopSent :=
  (readAloud_stops_before_new_synthesis envOk ⟨[], true, false⟩ ["A"] rfl rfl).1

/-! ## Claim C8 — idempotence of stop in the idle state -/

/-- Recognizer for the explicit sink stop command. -/
def isSinkStop : Event → Bool
  | Event.sinkStopSent => true
  | _ => false

/-- C8, confirmed.  Calling `stopReading` when no session is playing raises
no error (the function is total and its only fallible call sits inside
try/catch), leaves the idle state — the playing flag and the empty pending
queue — unchanged, and sends at most one (harmless) stop command to the
audio sink. -/
theorem stopReading_idle_idempotent (env : Env) (st : SWState)
    (hp : st.playing = false) (hq : st.queue = []) :
    (stopReading env st).1.playing = st.playing ∧
    (stopReading env st).1.queue = st.queue ∧
    (stopReading env st).2.countP isSinkStop ≤ 1 := by
  cases ho : env.offscreenOk <;>
    simp [stopReading, stopTrace, hp, hq, ho, isSinkStop]

/-- Witness for `stopReading_idle_idempotent` at the concrete idle state. -/
theorem stopReading_idle_idempotent_witness :
    (stopReading envOk idleState).1.playing = idleState.playing ∧
    (stopReading envOk idleState).1.queue = idleState.queue ∧
    (stopReading envOk idleState).2.countP isSinkStop ≤ 1 :=
  stopReading_idle_idempotent envOk idleState rfl rfl

/-! ## Claim C4 — backend failure of chunk 2 of 3 -/

/-- Fault environment for C4: the backend rejects exactly chunk "B". -/
def envC4 : Env := { envOk with backendOk := fun t => !(t == "B") }

/-- C4, counterexample.  The claim says chunk 3 is never requested.  But the
loop pushes the prefetch `getAudioUri` for chunk 3 at the top of the
iteration that dequeues chunk 2 (lines 101–106), *before* awaiting chunk 2's
prefetched audio (line 111); when chunk 2's failure is observed at that
`await`, chunk 3's synthesis request has already been issued: `synthStart
"C"` occurs in the trace. -/
theorem readAloud_chunk3_requested_on_chunk2_failure :
    Event.synthStart "C" ∈ readAloudTrace envC4 idleState ["A", "B", "C"] := by decide

/-- C4, amended.  For a three-chunk session whose second chunk fails with a
backend error observed when its prefetch is awaited: the session ends in
`Idle` (the backend-error path runs `stopReading` before throwing), the error
is surfaced to the caller, but chunk 3's synthesis *is* requested — its
prefetch (trace instant 5) precedes the observation of chunk 2's failure
(trace instant 6). -/
theorem readAloud_backend_failure_three_chunks_amended (env : Env) (a b c : String)
    (h1 : env.apiKeyOk = true) (h2 : env.backendOk a = true)
    (h3 : env.backendOk b = false) (h4 : env.offscreenOk = true)
    (h5 : env.playOk 0 = true) (h6 : env.stopDuringSynth 0 = false)
    (h7 : env.stopDuringSynth 1 = false) (h8 : env.stopDuringPlay 0 = false) :
    readAloudOutcome env idleState [a, b, c] = Outcome.threw ∧
    (readAloudState env idleState [a, b, c]).playing = false ∧
    readAloudTrace env idleState [a, b, c] =
      [Event.synthStart b, Event.synthStart a, Event.synthEnd a true,
       Event.playStart a, Event.playEnd a true, Event.synthStart c,
       Event.synthEnd b false, Event.setError "Failed to synthesize text",
       Event.stopCalled, Event.sinkStopSent] := by
  refine ⟨?_, ?_, ?_⟩ <;>
    simp [readAloudOutcome, readAloudState, readAloudTrace, readAloud, idleState,
      drainLoop, stopTrace, h1, h2, h3, h4, h5, h6, h7, h8]

/-- Witness for `readAloud_backend_failure_three_chunks_amended` at the
concrete environment that rejects chunk "B". -/
theorem readAloud_backend_failure_three_chunks_amended_witness :
    readAloudOutcome envC4 idleState ["A", "B", "C"] = Outcome.threw ∧
    (readAloudState envC4 idleState ["A", "B", "C"]).playing = false ∧
    readAloudTrace envC4 idleState ["A", "B", "C"] =
      [Event.synthStart "B", Event.synthStart "A", Event.synthEnd "A" true,
       Event.playStart "A", Event.playEnd "A" true, Event.synthStart "C",
       Event.synthEnd "B" false, Event.setError "Failed to synthesize text",
       Event.stopCalled, Event.sinkStopSent] :=
  readAloud_backend_failure_three_chunks_amended envC4 "A" "B" "C"
    (by decide) (by decide) (by decide) (by decide) (by decide) (by decide)
    (by decide) (by decide)

/-! ## Claim C6 — prefetch ordering over a three-chunk run -/

/-- C6, counterexample.  The claim says chunk C's synthesis is requested only
after chunk B begins playing.  In the fault-free run over ["A", "B", "C"],
C's synthesis request is at trace instant 5 while B's playback only starts at
instant 7: the prefetch for C is pushed at the top of B's iteration
(line 105), before B's audio is even awaited. -/
theorem readAloud_chunkC_requested_before_chunkB_plays :
    ((readAloudTrace envOk idleState ["A", "B", "C"])[5]? =
        some (Event.synthStart "C") ∧
      ∀ j < 5, (readAloudTrace envOk idleState ["A", "B", "C"])[j]? ≠
        some (Event.playStart "B")) ∧
    (readAloudTrace envOk idleState ["A", "B", "C"])[7]? =
      some (Event.playStart "B") := by
  refine ⟨⟨by decide, by decide⟩, by decide⟩

/-- C6, amended.  In a fault-free run over chunks [a, b, c]: b's synthesis is
requested (instant 0) before a's playback completes (instant 4) — indeed
before it begins (instant 3) — and c's synthesis is requested (instant 5)
after a's playback completes but *before* b's playback begins (instant 7),
not after it. -/
theorem readAloud_prefetch_ordering_amended (a b c : String) :
    readAloudTrace envOk idleState [a, b, c] =
      [Event.synthStart b, Event.synthStart a, Event.synthEnd a true,
       Event.playStart a, Event.playEnd a true, Event.synthStart c,
       Event.synthEnd b true, Event.playStart b, Event.playEnd b true,
       Event.synthEnd c true, Event.playStart c, Event.playEnd c true] := by
  rw [readAloudTrace_envOk]
  simp [okTrace]

/-! ## Claim C9 — playback failure without a concurrent stop -/

/-- Fault environment for C9: the sink rejects every playback, with no
concurrent `stopReading`. -/
def envPlayFail : Env := { envOk with playOk := fun _ => false }

/-- C9, confirmed.  If the sink reports a playback failure that was not
caused by a concurrent `stopReading`, the `catch` at lines 120–127 returns
early without resetting the `playing` flag or clearing the queue: the state
still reports playing and the unplayed chunks remain queued. -/
theorem readAloud_play_failure_leaves_state (env : Env) (a b : String)
    (rest : List String) (h1 : env.apiKeyOk = true) (h2 : env.backendOk a = true)
    (h3 : env.offscreenOk = true) (h4 : env.playOk 0 = false)
    (h5 : env.stopDuringSynth 0 = false) (h6 : env.stopDuringPlay 0 = false) :
    readAloudOutcome env idleState (a :: b :: rest) = Outcome.earlyReturn ∧
    (readAloudState env idleState (a :: b :: rest)).playing = true ∧
    (readAloudState env idleState (a :: b :: rest)).queue = b :: rest := by
  refine ⟨?_, ?_, ?_⟩ <;>
    simp [readAloudOutcome, readAloudState, readAloud, idleState, drainLoop,
      h1, h2, h3, h4, h5, h6]

/-- Witness for `readAloud_play_failure_leaves_state` at the concrete
playback-failing environment. -/
theorem readAloud_play_failure_leaves_state_witness :
    readAloudOutcome envPlayFail idleState ["A", "B"] = Outcome.earlyReturn ∧
    (readAloudState envPlayFail idleState ["A", "B"]).playing = true ∧
    (readAloudState envPlayFail idleState ["A", "B"]).queue = ["B"] :=
  readAloud_play_failure_leaves_state envPlayFail "A" "B" []
    rfl rfl rfl rfl rfl rfl

/-! ## Claim C10 — stop during a synthesis await -/

/-- Environment for C10: a user `stopReading` interleaves while the loop is
awaiting a chunk's synthesis. -/
def envStopSynth : Env := { envOk with stopDuringSynth := fun _ => true }

/-- C10, confirmed.  The cancellation token is inspected only at the top of
each loop iteration (line 94).  If `stopReading` runs while chunk `a`'s
synthesis is being awaited (the chunk already dequeued), the loop resumes
past the token check: the sink receives the stop command (instant 2) and then
still receives the `play` command for chunk `a` (instant 4) — token-only
cancellation takes effect no earlier than the next iteration boundary. -/
theorem stop_during_synth_still_plays_chunk (env : Env) (a : String)
    (h1 : env.apiKeyOk = true) (h2 : env.backendOk a = true)
    (h3 : env.offscreenOk = true) (h4 : env.stopDuringSynth 0 = true) :
    (readAloudTrace env idleState [a])[2]? = some Event.sinkStopSent ∧
    (readAloudTrace env idleState [a])[4]? = some (Event.playStart a) := by
  cases h5 : env.stopDuringPlay 0 <;> cases h6 : env.playOk 0 <;>
    refine ⟨?_, ?_⟩ <;>
    simp [readAloudTrace, readAloud, idleState, drainLoop, stopTrace,
      h1, h2, h3, h4, h5, h6]

/-- Witness for `stop_during_synth_still_plays_chunk` at the concrete
environment where a stop interleaves with the synthesis await. -/
theorem stop_during_synth_still_plays_chunk_witness :
    (readAloudTrace envStopSynth idleState ["A"])[2]? = some Event.sinkStopSent ∧
    (readAloudTrace envStopSynth idleState ["A"])[4]? =
      some (Event.playStart "A") :=
  stop_during_synth_still_plays_chunk envStopSynth "A" rfl rfl rfl rfl

/-! ## Claim C7 — lazy singleton creation of the offscreen document

`createOffscreenDocument` (lines 381–398) guards creation with the
module-level `creating` promise: a caller first awaits
`hasOffscreenDocument` (lines 400–411); if the document does not exist it
either awaits the in-flight `creating` promise or — the check of `creating`
and its assignment are in one synchronous continuation, with no `await`
between them — starts the creation itself.  We model each concurrent caller
as a process and the event loop as an arbitrary interleaving of caller
resumptions and of the completion of the in-flight `chrome.offscreen`
creation.  The existence check reflects the document's existence at the
instant the check resolves, and the owner's `creating = null` reset is
collapsed into the completion (a stale truthy `creating` promise only ever
resolves immediately, so the collapse is behaviour-preserving). -/

/-- Where a caller of `createOffscreenDocument` is suspended: not yet past
the `hasOffscreenDocument` check, awaiting the in-flight creation promise, or
returned. -/
inductive CallerPC where
  | ready
  | awaitingCreation
  | done
  deriving DecidableEq, Repr

/-- Shared state of the offscreen-document machinery: whether the document
exists, the `creating` in-flight flag (line 381), the number of
`chrome.offscreen.createDocument` calls made so far, and each caller's
position. -/
structure OffscreenState where
  docExists : Bool
  creating : Bool
  created : Nat
  pcs : List CallerPC
  deriving DecidableEq, Repr

/-- One event-loop step: resuming caller `i`, or the settlement of the
in-flight creation. -/
inductive OffscreenAction where
  | caller (i : Nat)
  | complete
  deriving DecidableEq, Repr

/-- Resume one caller of `createOffscreenDocument`: the body of
lines 385–397 at its current suspension point. -/
def callerStep (s : OffscreenState) (pc : CallerPC) : OffscreenState × CallerPC :=
  match pc with
  | CallerPC.ready =>
    if s.docExists then (s, CallerPC.done)
    else if s.creating then (s, CallerPC.awaitingCreation)
    else ({ s with creating := true, created := s.created + 1 },
          CallerPC.awaitingCreation)
  | CallerPC.awaitingCreation =>
    if s.creating then (s, CallerPC.awaitingCreation) else (s, CallerPC.done)
  | CallerPC.done => (s, CallerPC.done)

/-- One step of the interleaving semantics. -/
def offscreenStep (s : OffscreenState) : OffscreenAction → OffscreenState
  | OffscreenAction.caller i =>
    match s.pcs[i]? with
    | none => s
    | some pc =>
      let r := callerStep s pc
      { r.1 with pcs := r.1.pcs.set i r.2 }
  | OffscreenAction.complete =>
    if s.creating then { s with creating := false, docExists := true } else s

/-- Run a schedule of event-loop steps. -/
def offscreenRun (s : OffscreenState) : List OffscreenAction → OffscreenState
  | [] => s
  | a :: rest => offscreenRun (offscreenStep s a) rest

/-- `n` concurrent callers arriving before the offscreen document exists. -/
def offscreenInit (n : Nat) : OffscreenState :=
  { docExists := false, creating := false, created := 0,
    pcs := List.replicate n CallerPC.ready }

/-- Inductive invariant of the offscreen-document machinery. -/
def OffInv (s : OffscreenState) : Prop :=
  s.created ≤ 1 ∧
  (s.creating = true → s.created = 1 ∧ s.docExists = false) ∧
  (s.docExists = true → s.created = 1) ∧
  (s.created = 1 → s.creating = true ∨ s.docExists = true) ∧
  (∀ pc ∈ s.pcs, pc = CallerPC.awaitingCreation →
    s.creating = true ∨ s.docExists = true) ∧
  (∀ pc ∈ s.pcs, pc = CallerPC.done → s.docExists = true)

theorem forall_mem_set {P : CallerPC → Prop} {l : List CallerPC} {i : Nat}
    {b : CallerPC} (hl : ∀ pc ∈ l, P pc) (hb : P b) :
    ∀ pc ∈ l.set i b, P pc := by
  intro pc hpc
  rcases List.mem_or_eq_of_mem_set hpc with hm | he
  · exact hl pc hm
  · rw [he]; exact hb

theorem offscreenStep_inv (s : OffscreenState) (a : OffscreenAction)
    (h : OffInv s) : OffInv (offscreenStep s a) := by
  obtain ⟨h1, h2, h3, h4, h5, h6⟩ := h
  cases a with
  | complete =>
    cases hc : s.creating with
    | false =>
      have hstep : offscreenStep s OffscreenAction.complete = s := by
        simp [offscreenStep, hc]
      rw [hstep]; exact ⟨h1, h2, h3, h4, h5, h6⟩
    | true =>
      obtain ⟨hcr, -⟩ := h2 hc
      have hstep : offscreenStep s OffscreenAction.complete =
          { s with creating := false, docExists := true } := by
        simp [offscreenStep, hc]
      rw [hstep]
      exact ⟨h1, fun hx => Bool.noConfusion hx, fun _ => hcr,
        fun _ => Or.inr rfl, fun pc _ _ => Or.inr rfl, fun pc _ _ => rfl⟩
  | caller i =>
    cases hget : s.pcs[i]? with
    | none =>
      have hstep : offscreenStep s (OffscreenAction.caller i) = s := by
        simp [offscreenStep, hget]
      rw [hstep]; exact ⟨h1, h2, h3, h4, h5, h6⟩
    | some pc =>
      have hpcmem : pc ∈ s.pcs := List.getElem?_mem hget
      cases pc with
      | ready =>
        cases hdoc : s.docExists with
        | true =>
          have hstep : offscreenStep s (OffscreenAction.caller i) =
              { s with pcs := s.pcs.set i CallerPC.done } := by
            simp [offscreenStep, hget, callerStep, hdoc]
          rw [hstep]
          exact ⟨h1, h2, h3, h4,
            forall_mem_set h5 (fun heq => nomatch heq),
            forall_mem_set h6 (fun _ => hdoc)⟩
        | false =>
          cases hc : s.creating with
          | true =>
            have hstep : offscreenStep s (OffscreenAction.caller i) =
                { s with pcs := s.pcs.set i CallerPC.awaitingCreation } := by
              simp [offscreenStep, hget, callerStep, hdoc, hc]
            rw [hstep]
            exact ⟨h1, h2, h3, h4,
              forall_mem_set h5 (fun _ => Or.inl hc),
              forall_mem_set h6 (fun heq => nomatch heq)⟩
          | false =>
            have hz : s.created = 0 := by
              by_contra hnz
              have hone : s.created = 1 := by omega
              rcases h4 hone with hcr | hdc
              · rw [hc] at hcr; exact Bool.noConfusion hcr
              · rw [hdoc] at hdc; exact Bool.noConfusion hdc
            have hstep : offscreenStep s (OffscreenAction.caller i) =
                { s with
                  creating := true
                  created := s.created + 1
                  pcs := s.pcs.set i CallerPC.awaitingCreation } := by
              simp [offscreenStep, hget, callerStep, hdoc, hc]
            rw [hstep]
            refine ⟨?_, ?_, ?_, ?_, ?_, ?_⟩
            · show s.created + 1 ≤ 1
              omega
            · intro _
              exact ⟨by show s.created + 1 = 1; omega, hdoc⟩
            · intro hx
              have hx' : s.docExists = true := hx
              rw [hdoc] at hx'
              exact Bool.noConfusion hx'
            · intro _; exact Or.inl rfl
            · exact forall_mem_set (fun pc' _ _ => Or.inl rfl) (fun _ => Or.inl rfl)
            · exact forall_mem_set h6 (fun heq => nomatch heq)
      | awaitingCreation =>
        cases hc : s.creating with
        | true =>
          have hstep : offscreenStep s (OffscreenAction.caller i) =
              { s with pcs := s.pcs.set i CallerPC.awaitingCreation } := by
            simp [offscreenStep, hget, callerStep, hc]
          rw [hstep]
          exact ⟨h1, h2, h3, h4,
            forall_mem_set h5 (fun _ => Or.inl hc),
            forall_mem_set h6 (fun heq => nomatch heq)⟩
        | false =>
          have hdoc : s.docExists = true := by
            rcases h5 _ hpcmem rfl with hcr | hdc
            · rw [hc] at hcr; exact Bool.noConfusion hcr
            · exact hdc
          have hstep : offscreenStep s (OffscreenAction.caller i) =
              { s with pcs := s.pcs.set i CallerPC.done } := by
            simp [offscreenStep, hget, callerStep, hc]
          rw [hstep]
          exact ⟨h1, h2, h3, h4,
            forall_mem_set h5 (fun heq => nomatch heq),
            forall_mem_set h6 (fun _ => hdoc)⟩
      | done =>
        have hdoc : s.docExists = true := h6 _ hpcmem rfl
        have hstep : offscreenStep s (OffscreenAction.caller i) =
            { s with pcs := s.pcs.set i CallerPC.done } := by
          simp [offscreenStep, hget, callerStep]
        rw [hstep]
        exact ⟨h1, h2, h3, h4,
          forall_mem_set h5 (fun heq => nomatch heq),
          forall_mem_set h6 (fun _ => hdoc)⟩

theorem offscreenRun_inv (s : OffscreenState) (actions : List OffscreenAction)
    (h : OffInv s) : OffInv (offscreenRun s actions) := by
  induction actions generalizing s with
  | nil => exact h
  | cons a rest ih => exact ih _ (offscreenStep_inv s a h)

theorem offscreenInit_inv (n : Nat) : OffInv (offscreenInit n) := by
  refine ⟨by simp [offscreenInit], by simp [offscreenInit], by simp [offscreenInit],
    by simp [offscreenInit], ?_, ?_⟩ <;>
    intro pc hpc hpceq <;>
    rw [List.eq_of_mem_replicate hpc] at hpceq <;> exact absurd hpceq (by simp)

/-- C7, confirmed.  For any number of concurrent callers that try to acquire
the offscreen audio document while it does not yet exist, and any event-loop
interleaving: at most one `chrome.offscreen.createDocument` call is ever
made, and every caller that has completed did so with the document in
existence, after that single creation — all callers observe the same ready
sink. -/
theorem offscreen_single_creation (n : Nat) (actions : List OffscreenAction) :
    (offscreenRun (offscreenInit n) actions).created ≤ 1 ∧
    ∀ i : Nat,
      (offscreenRun (offscreenInit n) actions).pcs[i]? = some CallerPC.done →
      (offscreenRun (offscreenInit n) actions).docExists = true ∧
      (offscreenRun (offscreenInit n) actions).created = 1 := by
  obtain ⟨h1, _, h3, _, _, h6⟩ :=
    offscreenRun_inv (offscreenInit n) actions (offscreenInit_inv n)
  refine ⟨h1, fun i hi => ?_⟩
  have hdoc := h6 _ (List.getElem?_mem hi) rfl
  exact ⟨hdoc, h3 hdoc⟩

/-- Witness for `offscreen_single_creation`: three callers all pass the
existence check before any creation settles; they collapse into one creation
and all finish with the document ready. -/
theorem offscreen_single_creation_witness :
    (offscreenRun (offscreenInit 3)
        [OffscreenAction.caller 0, OffscreenAction.caller 1,
         OffscreenAction.caller 2, OffscreenAction.complete,
         OffscreenAction.caller 0, OffscreenAction.caller 1,
         OffscreenAction.caller 2]).docExists = true ∧
    (offscreenRun (offscreenInit 3)
        [OffscreenAction.caller 0, OffscreenAction.caller 1,
         OffscreenAction.caller 2, OffscreenAction.complete,
         OffscreenAction.caller 0, OffscreenAction.caller 1,
         OffscreenAction.caller 2]).created = 1 :=
  (offscreen_single_creation 3
      [OffscreenAction.caller 0, OffscreenAction.caller 1,
       OffscreenAction.caller 2, OffscreenAction.complete,
       OffscreenAction.caller 0, OffscreenAction.caller 1,
       OffscreenAction.caller 2]).2 0 (by decide)

end Wavenet
